import Mathlib

/-!
Shallow embedding of the order/payment/shipping core of the
`ecommerce-server` repository (TypeScript), for checking the natural
language specification against the source.

Conventions of the embedding:
* The hosted relational store is a record of tables (`DB`).  Reads the
  source performs with `.single()` but whose surrounding code treats a
  returned error and missing data alike (`error || !data`, as for the
  cart, address and order lookups) are modelled as list lookups returning
  the row when present and nothing otherwise — for those the distinction
  is unobservable.  The one read whose source branches on the error
  before the data — the orders duplicate check of the materializer — is
  modelled with the actual semantics of the supabase-js client
  (`checkExistingOrder`): `.single()` yields an error whenever the
  matching row count differs from one, in particular PGRST116 on zero
  rows.  Spontaneous storage-level read failures and timestamps
  (`updated_at`, `created_at`) are not modelled.
* External collaborators (the Shippo rate aggregator, the Stripe payment
  processor) are modelled as parameters carrying the outcome of the one
  external call a function makes.
* JavaScript `Math.round` is modelled as `jsRound` over exact rationals
  (round half toward positive infinity); the floating-point representation
  error of `0.07` is not modelled.
* The duck-typed join shape of `cart_items.products` (single object or
  array, an artifact of the relational client) is carried on each cart
  row as `arrayShaped`.
-/

namespace Shop

/-- Structure `AppError` from src/src/utils/appError.ts: message plus HTTP status. -/
structure AppError where
  message : String
  statusCode : Nat
deriving DecidableEq, Repr

/-- JavaScript `Math.round`: round half toward positive infinity. -/
def jsRound (q : ℚ) : ℤ := (q + 1/2).floor

/-- Product dimensions (length/width/height columns). -/
structure Dimensions where
  length : ℚ
  width : ℚ
  height : ℚ
deriving DecidableEq, Repr

/-- A row of the `products` table (fields the core reads and writes). -/
structure Product where
  id : String
  price : ℤ
  weight : ℚ
  dimensions : Dimensions
  inventory_quantity : ℤ
deriving DecidableEq, Repr

/-- A row of the `carts` table. -/
structure Cart where
  id : String
  user_id : Option String
deriving DecidableEq, Repr

/-- A row of the `addresses` table (fields the core reads). -/
structure Address where
  id : String
  address_line1 : String
  city : String
  state : String
  postal_code : String
  country : String
deriving DecidableEq, Repr

/-- A row of the `cart_items` table.  `arrayShaped` records the shape the
relational client gives the joined `products` field for this row (array
versus single object), the runtime ambiguity the source sniffs with
`Array.isArray`. -/
structure CartItemRow where
  id : String
  cart_id : String
  product_id : String
  quantity : ℤ
  arrayShaped : Bool
deriving DecidableEq, Repr

/-- A row of the `orders` table (fields the core reads and writes). -/
structure OrderRow where
  id : Nat
  user_id : Option String
  status : String
  total_amount : ℤ
  subtotal : ℤ
  tax : ℤ
  shipping_cost : ℤ
  discount_amount : ℤ
  stripe_payment_intent_id : String
  billing_address_id : String
  shipping_address_id : String
  shipping_method : String
  shipping_rate_id : String
  tracking_number : Option String
  label_url : Option String
  carrier : Option String
deriving DecidableEq, Repr

/-- A row of the `order_items` table. -/
structure OrderItemRow where
  order_id : Nat
  product_id : String
  quantity : ℤ
  unit_price : ℤ
  total_price : ℤ
deriving DecidableEq, Repr

/-- The hosted relational store.  `nextOrderId` models id generation for
inserted orders. -/
structure DB where
  carts : List Cart
  cart_items : List CartItemRow
  products : List Product
  addresses : List Address
  orders : List OrderRow
  order_items : List OrderItemRow
  nextOrderId : Nat
deriving DecidableEq, Repr

/-! ## Cart Snapshot Provider — src/src/services/cart.service.ts -/

/-- The joined `products` field of a cart line: the relational client may
return a single object or an array. -/
inductive ProductsJoin where
  | obj (p : Product)
  | arr (ps : List Product)
deriving DecidableEq, Repr

/-- A cart line as returned by `getCartWithItems` (id, quantity, joined
product details). -/
structure CartLineJoined where
  id : String
  quantity : ℤ
  products : Option ProductsJoin
deriving DecidableEq, Repr

/-- The `summary` record computed by `getCartWithItems`. -/
structure CartSummary where
  subtotal : ℤ
  totalItems : ℤ
deriving DecidableEq, Repr

/-- The result record of `getCartWithItems`. -/
structure CartWithItems where
  cart : Cart
  items : List CartLineJoined
  summary : CartSummary
deriving DecidableEq, Repr

/-- The join `products:product_id (...)` of cart.service.ts: resolve the
`product_id` against the products table and wrap it in the shape the
client returns for this row. -/
def joinProducts (db : DB) (row : CartItemRow) : Option ProductsJoin :=
  match db.products.find? (fun p => p.id == row.product_id) with
  | none => none
  | some p => some (if row.arrayShaped then .arr [p] else .obj p)

/-- One pass of the totals loop of `getCartWithItems` (cart.service.ts
lines 486-509): subtotal is accumulated only when `item.products` is a
non-empty array; `totalItems` is accumulated whenever `item.products` is
present. -/
def cartTotalsStep (acc : CartSummary) (item : CartLineJoined) : CartSummary :=
  match item.products with
  | none => acc
  | some (.arr []) => { acc with totalItems := acc.totalItems + item.quantity }
  | some (.arr (p :: _)) =>
      { subtotal := acc.subtotal + p.price * item.quantity,
        totalItems := acc.totalItems + item.quantity }
  | some (.obj _) => { acc with totalItems := acc.totalItems + item.quantity }

/-- The totals loop of `getCartWithItems`. -/
def cartTotals (items : List CartLineJoined) : CartSummary :=
  items.foldl cartTotalsStep ⟨0, 0⟩

/-- Function `getCartWithItems` (cart.service.ts): resolve the cart, join each of
its lines with product details, and compute the summary. -/
def getCartWithItems (db : DB) (cartId : String) : Except AppError CartWithItems :=
  match db.carts.find? (fun c => c.id == cartId) with
  | none => .error ⟨"Cart not found", 404⟩
  | some cart =>
    let rows := db.cart_items.filter (fun r => r.cart_id == cartId)
    let items := rows.map (fun r => ⟨r.id, r.quantity, joinProducts db r⟩)
    .ok ⟨cart, items, cartTotals items⟩

/-! ## Pricing & Rate Resolver interface used by the payment service -/

/-- A line item as handed to `calculateShippingRates` by the payment
service (product id, quantity, weight, dimensions). -/
structure ShippingItem where
  product_id : String
  quantity : ℤ
  weight : ℚ
  dimensions : Dimensions
deriving DecidableEq, Repr

/-- A shipping rate offer as returned by the Shippo-backed
`calculateShippingRates` (shipping.service.ts): purchase token
(`rate_id`), service code, price in minor currency units. -/
structure ShippingRate where
  rate_id : String
  service_code : String
  service_name : String
  carrier : String
  rate : ℤ
  estimated_days : ℤ
deriving DecidableEq, Repr

/-- The rate resolver the payment service calls
(`calculateShippingRates`), abstracted over the external aggregator:
given the destination address and line items it yields rate offers or an
error. -/
def RateResolver : Type :=
  Address → List ShippingItem → Except AppError (List ShippingRate)

/-- Translation of `Array.isArray(item.products) ? item.products[0] : item.products` —
the duck-typed product extraction used across payment.service.ts.
`none` means the subsequent property access would throw a `TypeError`
(products absent, or an empty array). -/
def extractProduct : ProductsJoin → Option Product
  | .arr ps => ps.head?
  | .obj p => some p

/-- The `items.map(...)` that payment.service.ts performs to build the
shipping-rate request; `none` when a product access would throw. -/
def mapToShippingItems (items : List CartLineJoined) : Option (List ShippingItem) :=
  items.mapM (fun item =>
    match item.products.bind extractProduct with
    | none => none
    | some p => some ⟨p.id, item.quantity, p.weight, p.dimensions⟩)

/-! ## Payment Intent Manager — createPaymentIntent
(src/src/services/payment.service.ts lines 30-143) -/

/-- The caller-supplied body of `createPaymentIntent`. -/
structure CreatePaymentIntentDto where
  cartId : String
  shipping_address_id : String
  billing_address_id : String
  shipping_method : String
  shipping_rate_id : String
deriving DecidableEq, Repr

/-- The breakdown `createPaymentIntent` returns (the externally
authorized amount plus its components). -/
structure PaymentIntentBreakdown where
  amount : ℤ
  subtotal : ℤ
  tax : ℤ
  shipping : ℤ
deriving DecidableEq, Repr

/-- The 7 percent placeholder tax policy of payment.service.ts:
`Math.round(summary.subtotal * taxRate)` with `taxRate = 0.07`. -/
def taxOf (subtotal : ℤ) : ℤ := jsRound ((subtotal : ℚ) * (7/100))

/-- Function `createPaymentIntent` (payment.service.ts lines 30-143): snapshot the
cart, reject if empty, resolve the shipping address, re-resolve live
rates, locate the chosen service code, compute tax and total, authorize
externally.  The external Stripe call itself always succeeds with the
computed amount; the function returns the breakdown. -/
def createPaymentIntent (resolve : RateResolver) (d : CreatePaymentIntentDto)
    (db : DB) : Except AppError PaymentIntentBreakdown := do
  let cwi ← getCartWithItems db d.cartId
  if cwi.items.isEmpty then
    throw ⟨"Cart is empty", 400⟩
  else
    match db.addresses.find? (fun a => a.id == d.shipping_address_id) with
    | none => throw ⟨"Shipping address not found", 404⟩
    | some shippingAddress =>
      match mapToShippingItems cwi.items with
      | none => throw ⟨"Failed to create payment intent", 500⟩
      | some sitems => do
        let shippingRates ← resolve shippingAddress sitems
        match shippingRates.find? (fun rate => rate.service_code == d.shipping_method) with
        | none => throw ⟨"Selected shipping method not available", 400⟩
        | some selectedShipping =>
          let taxAmount := taxOf cwi.summary.subtotal
          let totalAmount := cwi.summary.subtotal + taxAmount + selectedShipping.rate
          return ⟨totalAmount, cwi.summary.subtotal, taxAmount, selectedShipping.rate⟩

/-! ## Order Materializer — createOrderFromPaymentIntent
(src/src/services/payment.service.ts lines 839-1031) -/

/-- The metadata embedded in a payment intent at creation; the only
channel for reconstructing order context.  An empty `user_id` plays the
role of the falsy string checked by `metadata.user_id || null`. -/
structure PIMetadata where
  cart_id : String
  user_id : String
  shipping_address_id : String
  billing_address_id : String
  shipping_method : String
  shipping_rate_id : String
deriving DecidableEq, Repr

/-- The externally tracked payment intent, as the materializer receives
it. -/
structure PaymentIntent where
  id : String
  amount : ℤ
  metadata : PIMetadata
deriving DecidableEq, Repr

/-- The materializer result: order id plus the newly-created flag. -/
structure MatResult where
  orderId : Nat
  created : Bool
deriving DecidableEq, Repr

/-- Modelled from the spec: the storage layer (the hosted database schema
is not under src/) enforces a uniqueness constraint on the payment-intent
reference of `orders` — the insert fails with a uniqueness violation
exactly when a row with the same `stripe_payment_intent_id` already
exists; otherwise the row is appended and the id counter advances. -/
def insertOrder (db : DB) (row : OrderRow) : Except Unit DB :=
  if db.orders.any (fun o => o.stripe_payment_intent_id == row.stripe_payment_intent_id) then
    .error ()
  else
    .ok { db with orders := db.orders ++ [row], nextOrderId := db.nextOrderId + 1 }

/-- The order row the materializer inserts (payment.service.ts lines
938-961). -/
def orderRowFor (pi : PaymentIntent) (subtotal : ℤ) (selected : ShippingRate)
    (oid : Nat) : OrderRow :=
  { id := oid
    user_id := if pi.metadata.user_id == "" then none else some pi.metadata.user_id
    status := "paid"
    total_amount := pi.amount
    subtotal := subtotal
    tax := taxOf subtotal
    shipping_cost := selected.rate
    discount_amount := 0
    stripe_payment_intent_id := pi.id
    billing_address_id := pi.metadata.billing_address_id
    shipping_address_id := pi.metadata.shipping_address_id
    shipping_method := pi.metadata.shipping_method
    shipping_rate_id := pi.metadata.shipping_rate_id
    tracking_number := none
    label_url := none
    carrier := none }

/-- The `order_items` rows the materializer inserts (payment.service.ts
lines 968-986); `none` when a duck-typed product access would throw. -/
def mapOrderItems (oid : Nat) (items : List CartLineJoined) : Option (List OrderItemRow) :=
  items.mapM (fun item =>
    match item.products.bind extractProduct with
    | none => none
    | some p => some ⟨oid, p.id, item.quantity, p.price, p.price * item.quantity⟩)

/-- The inventory loop of the materializer (payment.service.ts lines
993-1015): for each line, write the absolute value
`product.inventory_quantity - item.quantity` computed from the snapshot
product held in application memory.  Stops with an error when a
duck-typed product access would throw, keeping the writes made so far. -/
def decrementLoop : List CartLineJoined → DB → Option AppError × DB
  | [], db => (none, db)
  | item :: rest, db =>
    match item.products.bind extractProduct with
    | none => (some ⟨"Failed to create order from payment", 500⟩, db)
    | some p =>
      decrementLoop rest
        { db with
          products := db.products.map (fun q =>
            if q.id == p.id then
              { q with inventory_quantity := p.inventory_quantity - item.quantity }
            else q) }

/-- The tail of the materializer (payment.service.ts lines 993-1023):
run the inventory loop, then clear the source cart and return the
newly-created result. -/
def finalizeOrder (cartId : String) (oid : Nat) (items : List CartLineJoined)
    (db2 : DB) : Except AppError MatResult × DB :=
  match decrementLoop items db2 with
  | (some e, db3) => (.error e, db3)
  | (none, db3) =>
    (.ok ⟨oid, true⟩,
     { db3 with cart_items := db3.cart_items.filter (fun r => !(r.cart_id == cartId)) })

/-- The duplicate check of the materializer (payment.service.ts lines
844-848): a `.single()` read of the order whose payment-intent reference
matches.  Per the supabase-js client, `.single()` returns an error
whenever the matching row count differs from one — in particular
PGRST116 with null data on zero rows — and the row with no error on
exactly one.  (That the source means this client is visible in its
sibling `handlePaymentIntentFailed`, which uses `.maybeSingle()` for a
lookup that may find nothing, and in the older variant of this very
function in part_012, which uses `.maybeSingle()` for this check.)
First component: the error; second: the data. -/
def checkExistingOrder (db : DB) (piId : String) : Option Unit × Option OrderRow :=
  match db.orders.filter (fun o => o.stripe_payment_intent_id == piId) with
  | [existingOrder] => (none, some existingOrder)
  | _ => (some (), none)

/-- Function `createOrderFromPaymentIntent` (payment.service.ts lines 839-1031).
Returns the outcome together with the store as left behind — a thrown
error keeps whatever writes had already happened.  Note the shape of the
duplicate check: because `.single()` errors on zero rows, the third
branch below — the entire creation path of lines 861-1023, translated
faithfully — can never be entered. -/
def createOrderFromPaymentIntent (resolve : RateResolver) (pi : PaymentIntent)
    (db : DB) : Except AppError MatResult × DB :=
  -- lines 843-858: `if (orderCheckError) throw ...; if (existingOrder) return ...`
  match checkExistingOrder db pi.id with
  | (some _, _) => (.error ⟨"Failed to check existing order", 500⟩, db)
  | (none, some existingOrder) => (.ok ⟨existingOrder.id, false⟩, db)
  | (none, none) =>
    match getCartWithItems db pi.metadata.cart_id with
    | .error e => (.error e, db)
    | .ok cwi =>
      if cwi.items.isEmpty then (.error ⟨"Cart is empty", 400⟩, db)
      else
        match db.addresses.find? (fun a => a.id == pi.metadata.shipping_address_id) with
        | none => (.error ⟨"Shipping address not found", 404⟩, db)
        | some shippingAddress =>
          match db.addresses.find? (fun a => a.id == pi.metadata.billing_address_id) with
          | none => (.error ⟨"Billing address not found", 404⟩, db)
          | some _ =>
            match mapToShippingItems cwi.items with
            | none => (.error ⟨"Failed to create order from payment", 500⟩, db)
            | some sitems =>
              match resolve shippingAddress sitems with
              | .error e => (.error e, db)
              | .ok shippingRates =>
                match shippingRates.find? (fun rate => rate.rate_id == pi.metadata.shipping_rate_id) with
                | none => (.error ⟨"Selected shipping method not available", 400⟩, db)
                | some selectedShipping =>
                  if selectedShipping.service_code != pi.metadata.shipping_method then
                    (.error ⟨"Shipping method mismatch", 400⟩, db)
                  else
                    match insertOrder db (orderRowFor pi cwi.summary.subtotal selectedShipping db.nextOrderId) with
                    | .error _ => (.error ⟨"Failed to create order", 500⟩, db)
                    | .ok db1 =>
                      match mapOrderItems db.nextOrderId cwi.items with
                      | none => (.error ⟨"Failed to create order from payment", 500⟩, db1)
                      | some orderItems =>
                        finalizeOrder pi.metadata.cart_id db.nextOrderId cwi.items
                          { db1 with order_items := db1.order_items ++ orderItems }

/-! ## Interleaved execution of the materializer

Each inbound request runs `createOrderFromPaymentIntent` independently;
to reason about two racing invocations the function is presented as a
small-step machine whose atomic steps are its awaited storage
operations.  The read-only phase (duplicate check, cart snapshot,
address and rate resolution, lines 843-933) is one step; each write
(order insert, order-items insert, each inventory write, cart clear,
lines 938-1021) is its own step. -/

instance {ε α : Type} [DecidableEq ε] [DecidableEq α] : DecidableEq (Except ε α) := fun x y =>
  match x, y with
  | .ok a, .ok b =>
    if h : a = b then .isTrue (by rw [h]) else .isFalse (fun hc => h (Except.ok.inj hc))
  | .error a, .error b =>
    if h : a = b then .isTrue (by rw [h]) else .isFalse (fun hc => h (Except.error.inj hc))
  | .ok _, .error _ => .isFalse (fun hc => Except.noConfusion hc)
  | .error _, .ok _ => .isFalse (fun hc => Except.noConfusion hc)

/-- The read-only phase of the materializer (payment.service.ts lines
861-933, after the duplicate check): snapshot the cart, resolve both
addresses, re-resolve rates, locate the offer with the stored rate token
and check its service code. -/
def matPrepare (resolve : RateResolver) (pi : PaymentIntent) (db : DB) :
    Except AppError (CartWithItems × ShippingRate) :=
  match getCartWithItems db pi.metadata.cart_id with
  | .error e => .error e
  | .ok cwi =>
    if cwi.items.isEmpty then .error ⟨"Cart is empty", 400⟩
    else
      match db.addresses.find? (fun a => a.id == pi.metadata.shipping_address_id) with
      | none => .error ⟨"Shipping address not found", 404⟩
      | some shippingAddress =>
        match db.addresses.find? (fun a => a.id == pi.metadata.billing_address_id) with
        | none => .error ⟨"Billing address not found", 404⟩
        | some _ =>
          match mapToShippingItems cwi.items with
          | none => .error ⟨"Failed to create order from payment", 500⟩
          | some sitems =>
            match resolve shippingAddress sitems with
            | .error e => .error e
            | .ok shippingRates =>
              match shippingRates.find? (fun rate => rate.rate_id == pi.metadata.shipping_rate_id) with
              | none => .error ⟨"Selected shipping method not available", 400⟩
              | some selectedShipping =>
                if selectedShipping.service_code != pi.metadata.shipping_method then
                  .error ⟨"Shipping method mismatch", 400⟩
                else .ok (cwi, selectedShipping)

/-- Control state of one in-flight materializer invocation. -/
inductive MatThread where
  | start
  | readyToInsert (cwi : CartWithItems) (selected : ShippingRate)
  | insertedOrder (cartId : String) (items : List CartLineJoined) (oid : Nat)
  | decrementing (cartId : String) (pending : List CartLineJoined) (oid : Nat)
  | finished (r : Except AppError MatResult)
deriving DecidableEq

/-- One atomic step of a materializer invocation against the shared
store.  A `finished` thread does nothing. -/
def matStep (resolve : RateResolver) (pi : PaymentIntent) :
    MatThread → DB → MatThread × DB
  | .start, db =>
    match checkExistingOrder db pi.id with
    | (some _, _) => (.finished (.error ⟨"Failed to check existing order", 500⟩), db)
    | (none, some existingOrder) => (.finished (.ok ⟨existingOrder.id, false⟩), db)
    | (none, none) =>
      match matPrepare resolve pi db with
      | .error e => (.finished (.error e), db)
      | .ok (cwi, selected) => (.readyToInsert cwi selected, db)
  | .readyToInsert cwi selected, db =>
    match insertOrder db (orderRowFor pi cwi.summary.subtotal selected db.nextOrderId) with
    | .error _ => (.finished (.error ⟨"Failed to create order", 500⟩), db)
    | .ok db1 => (.insertedOrder pi.metadata.cart_id cwi.items db.nextOrderId, db1)
  | .insertedOrder cartId items oid, db =>
    match mapOrderItems oid items with
    | none => (.finished (.error ⟨"Failed to create order from payment", 500⟩), db)
    | some orderItems =>
      (.decrementing cartId items oid, { db with order_items := db.order_items ++ orderItems })
  | .decrementing cartId [] oid, db =>
    (.finished (.ok ⟨oid, true⟩),
     { db with cart_items := db.cart_items.filter (fun r => !(r.cart_id == cartId)) })
  | .decrementing cartId (item :: rest) oid, db =>
    match item.products.bind extractProduct with
    | none => (.finished (.error ⟨"Failed to create order from payment", 500⟩), db)
    | some p =>
      (.decrementing cartId rest oid,
       { db with
         products := db.products.map (fun q =>
           if q.id == p.id then
             { q with inventory_quantity := p.inventory_quantity - item.quantity }
           else q) })
  | .finished r, db => (.finished r, db)

/-- Run two materializer invocations under a schedule: `true` steps the
first thread, `false` the second. -/
def run2 (resolve1 resolve2 : RateResolver) (pi1 pi2 : PaymentIntent) :
    List Bool → DB → MatThread → MatThread → DB × MatThread × MatThread
  | [], db, t1, t2 => (db, t1, t2)
  | b :: rest, db, t1, t2 =>
    if b then
      let (t1', db') := matStep resolve1 pi1 t1 db
      run2 resolve1 resolve2 pi1 pi2 rest db' t1' t2
    else
      let (t2', db') := matStep resolve2 pi2 t2 db
      run2 resolve1 resolve2 pi1 pi2 rest db' t1 t2'

/-! ## Webhook/Event Dispatcher
(src/src/services/payment.service.ts lines 177-234 and
src/src/controllers/webhook.controller.ts lines 10-51)

Each internal handler starts with an external Stripe retrieval, so the
handlers are modelled as parameters: a handler takes the store and
returns either success or a thrown error, together with the store as
left behind (a throw keeps partial writes).  The dispatcher switch and
its catch-all are translated from the source. -/

/-- One internal webhook handler: outcome plus store left behind. -/
def WebhookHandler : Type := DB → Except AppError Unit × DB

/-- The nine internal handlers `handleStripeWebhook` dispatches to,
each already closed over the payload of the concrete event. -/
structure WebhookHandlers where
  onPaymentIntentSucceeded : WebhookHandler
  onChargeSucceeded : WebhookHandler
  onPaymentIntentFailed : WebhookHandler
  onRefund : WebhookHandler
  onDisputeCreated : WebhookHandler
  onDisputeUpdated : WebhookHandler
  onDisputeClosed : WebhookHandler
  onFraudWarningCreated : WebhookHandler
  onFraudWarningUpdated : WebhookHandler

/-- The acknowledgment `handleStripeWebhook` returns to its caller. -/
structure WebhookAck where
  received : Bool
  error : Bool
deriving DecidableEq, Repr

/-- The event types the dispatcher recognizes. -/
def recognizedEventTypes : List String :=
  ["payment_intent.succeeded", "charge.succeeded",
   "payment_intent.payment_failed", "payment_intent.refunded",
   "charge.refunded", "charge.dispute.created", "charge.dispute.updated",
   "charge.dispute.closed", "radar.early_fraud_warning.created",
   "radar.early_fraud_warning.updated"]

/-- The `switch (event.type)` of `handleStripeWebhook`
(payment.service.ts lines 181-224); an unrecognized type is a logged
no-op. -/
def dispatchEvent (h : WebhookHandlers) (eventType : String) (db : DB) :
    Except AppError Unit × DB :=
  if eventType == "payment_intent.succeeded" then h.onPaymentIntentSucceeded db
  else if eventType == "charge.succeeded" then h.onChargeSucceeded db
  else if eventType == "payment_intent.payment_failed" then h.onPaymentIntentFailed db
  else if eventType == "payment_intent.refunded" || eventType == "charge.refunded" then
    h.onRefund db
  else if eventType == "charge.dispute.created" then h.onDisputeCreated db
  else if eventType == "charge.dispute.updated" then h.onDisputeUpdated db
  else if eventType == "charge.dispute.closed" then h.onDisputeClosed db
  else if eventType == "radar.early_fraud_warning.created" then h.onFraudWarningCreated db
  else if eventType == "radar.early_fraud_warning.updated" then h.onFraudWarningUpdated db
  else (.ok (), db)

/-- Function `handleStripeWebhook` (payment.service.ts lines 177-234): dispatch on
the event type; any error thrown by a handler is caught and turned into
a success acknowledgment with the error flag set. -/
def handleStripeWebhook (h : WebhookHandlers) (eventType : String) (db : DB) :
    WebhookAck × DB :=
  let r := dispatchEvent h eventType db
  match r.1 with
  | .ok _ => (⟨true, false⟩, r.2)
  | .error _ => (⟨true, true⟩, r.2)

/-- The HTTP response of the webhook endpoint. -/
structure WebhookHttpResponse where
  status : Nat
  received : Bool
deriving DecidableEq, Repr

/-- Function `handleStripeWebhookRequest` (webhook.controller.ts lines 10-51):
missing signature gives 400; signature verification failure
(`stripe.webhooks.constructEvent`, an external call modelled by its
outcome) gives 400 with no dispatch; otherwise the event is dispatched
and the endpoint responds 200 received regardless of the outcome. -/
def handleStripeWebhookRequest (h : WebhookHandlers) (signature : Option String)
    (constructEvent : Except String String) (db : DB) : WebhookHttpResponse × DB :=
  match signature with
  | none => (⟨400, false⟩, db)
  | some _ =>
    match constructEvent with
    | .error _ => (⟨400, false⟩, db)
    | .ok eventType =>
      let (_, db') := handleStripeWebhook h eventType db
      (⟨200, true⟩, db')

/-! ## Pricing & Rate Resolver — calculateShippingRates
(the Shippo-backed shipping service, src/unnamed/part_011) -/

/-- A failure of the external aggregator call (transport or auth),
carrying the message of the thrown error. -/
structure ShippoFailure where
  message : String
deriving DecidableEq, Repr

/-- One rate of the shipment the aggregator returns. -/
structure ProviderRate where
  objectId : Option String
  provider : String
  serviceToken : String
  serviceName : String
  amount : ℚ
  estimatedDays : Option ℤ
deriving DecidableEq, Repr

/-- One tier of `FREE_SHIPPING_CONFIG` (src/src/config/shippo.ts). -/
structure FreeShippingTier where
  threshold : ℚ
  methods : List String
deriving DecidableEq, Repr

/-- Value `FREE_SHIPPING_CONFIG.domestic`. -/
def freeShippingDomestic : FreeShippingTier :=
  ⟨75, ["usps_priority", "usps_ground_advantage"]⟩

/-- Value `FREE_SHIPPING_CONFIG.international`. -/
def freeShippingInternational : FreeShippingTier :=
  ⟨150, ["usps_priority_mail_international"]⟩

/-- The request of `calculateShippingRates`. -/
structure ShippingRateRequest where
  address : Address
  items : List ShippingItem
  orderValue : ℚ
deriving DecidableEq, Repr

/-- Whether the second character list is a leading pattern of the first. -/
def listStartsWith : List Char → List Char → Bool
  | _, [] => true
  | [], _ :: _ => false
  | a :: as, b :: bs => a == b && listStartsWith as bs

/-- Whether the second character list occurs inside the first. -/
def listContainsSub : List Char → List Char → Bool
  | [], pat => pat.isEmpty
  | a :: as, pat => listStartsWith (a :: as) pat || listContainsSub as pat

/-- JavaScript `String.prototype.includes`. -/
def strContains (s pat : String) : Bool :=
  listContainsSub s.data pat.data

/-- The JavaScript comparator of `calculateShippingRates` (free offers
first, then ascending price), as a strict before-relation. -/
def rateBefore (r s : ShippingRate) : Bool :=
  if r.rate == 0 && !(s.rate == 0) then true
  else if !(r.rate == 0) && s.rate == 0 then false
  else decide (r.rate < s.rate)

/-- Stable insertion step for `sortRates`. -/
def rateInsert (r : ShippingRate) : List ShippingRate → List ShippingRate
  | [] => [r]
  | s :: rest =>
    if rateBefore r s then r :: s :: rest
    else s :: rateInsert r rest

/-- The sort at the end of `calculateShippingRates`. -/
def sortRates (l : List ShippingRate) : List ShippingRate :=
  l.foldl (fun acc r => rateInsert r acc) []

/-- The `try` body of `calculateShippingRates` (part_011, Shippo
version): the external shipment creation is modelled by its outcome
`shipment`.  Zero quotable offers raise the no-rates error; otherwise
offers are filtered for purchasable ones, priced (zeroed when the
free-shipping tier applies), and sorted.  Any failure carries the
message the catch block will inspect. -/
def calculateShippingRatesCore (shipment : Except ShippoFailure (List ProviderRate))
    (req : ShippingRateRequest) : Except ShippoFailure (List ShippingRate) :=
  match shipment with
  | .error f => .error f
  | .ok rates =>
    if rates.isEmpty then .error ⟨"No shipping rates available for this address"⟩
    else
      let isDomestic := req.address.country == "US" || req.address.country == ""
      let cfg := if isDomestic then freeShippingDomestic else freeShippingInternational
      let eligibleForFreeShipping := decide (req.orderValue ≥ cfg.threshold)
      let transformed := (rates.filter (fun r => r.objectId.isSome)).map (fun r =>
        let serviceToken := r.serviceToken
        let isFreeShippingMethod := cfg.methods.contains serviceToken
        let finalRate :=
          if eligibleForFreeShipping && isFreeShippingMethod then (0 : ℤ)
          else jsRound (r.amount * 100)
        ⟨r.objectId.getD "", r.provider ++ "_" ++ serviceToken, r.serviceName,
          r.provider, finalRate, r.estimatedDays.getD 5⟩)
      .ok (sortRates transformed)

/-- Function `calculateShippingRates` (part_011, Shippo version) with its catch
block: a failure whose message mentions an invalid API key becomes the
configuration error; any other failure — including the no-rates error
thrown inside the `try` — is re-thrown with its message (or the generic
one when empty) and status 500. -/
def calculateShippingRates (shipment : Except ShippoFailure (List ProviderRate))
    (req : ShippingRateRequest) : Except AppError (List ShippingRate) :=
  match calculateShippingRatesCore shipment req with
  | .ok rates => .ok rates
  | .error f =>
    if strContains f.message "Invalid API key" then
      .error ⟨"Shipping service configuration error", 500⟩
    else
      .error ⟨if f.message == "" then "Failed to calculate shipping rates" else f.message, 500⟩

/-! ## Admin order status update — src/src/services/order.service.ts -/

/-- The transaction the aggregator returns on label purchase, as read by
`generateShippingLabel` (part_011, Shippo version): falsy fields are
already defaulted to the empty string. -/
structure ShippoTransaction where
  status : String
  tracking_number : String
  label_url : String
  carrier : String
deriving DecidableEq, Repr

/-- The result of `generateShippingLabel`. -/
structure LabelResult where
  trackingNumber : String
  labelUrl : String
deriving DecidableEq, Repr

/-- Function `generateShippingLabel` (part_011, Shippo version, lines 448-500):
purchase a label for the stored rate (external call modelled by its
outcome `tx`), then write tracking and label fields on the order row,
setting its status to ready_to_ship.  Any failure, including an
unsuccessful transaction, surfaces as the generic label error via the
catch block. -/
def generateShippingLabel (tx : Except ShippoFailure ShippoTransaction)
    (orderId : Nat) (db : DB) : Except AppError LabelResult × DB :=
  match tx with
  | .error _ => (.error ⟨"Failed to generate shipping label", 500⟩, db)
  | .ok t =>
    if t.status != "SUCCESS" then
      (.error ⟨"Failed to generate shipping label", 500⟩, db)
    else
      (.ok ⟨t.tracking_number, t.label_url⟩,
       { db with orders := db.orders.map (fun o =>
           if o.id == orderId then
             { o with
               tracking_number := some t.tracking_number
               label_url := some t.label_url
               carrier := some t.carrier
               status := "ready_to_ship" }
           else o) })

/-- The result of `updateOrderStatus`. -/
structure UpdateStatusResult where
  success : Bool
  trackingNumber : Option String
deriving DecidableEq, Repr

/-- The statuses `updateOrderStatus` accepts. -/
def validStatuses : List String :=
  ["pending", "paid", "processing", "shipped", "delivered", "cancelled", "refunded"]

/-- The label branch of `updateOrderStatus` (order.service.ts lines
376-443): when transitioning to shipped without a tracking number,
re-fetch the order details and shipping address, require a stored rate
token, and purchase a label (which supplies the tracking number);
otherwise pass the caller-supplied tracking number through.  An empty
`trackingNumber` plays the role of the falsy value of the source. -/
def labelStepFor (tx : Except ShippoFailure ShippoTransaction) (orderId : Nat)
    (status trackingNumber : String) (fullOrder : OrderRow) (db : DB) :
    Except AppError String × DB :=
  if status == "shipped" && trackingNumber == "" then
    match db.addresses.find? (fun a => a.id == fullOrder.shipping_address_id) with
    | none => (.error ⟨"Failed to fetch shipping address", 500⟩, db)
    | some _ =>
      if fullOrder.shipping_rate_id == "" then
        (.error ⟨"No shipping rate ID found for order", 400⟩, db)
      else
        match generateShippingLabel tx orderId db with
        | (.error e, db') => (.error e, db')
        | (.ok lab, db') => (.ok lab.trackingNumber, db')
  else (.ok trackingNumber, db)

/-- Function `updateOrderStatus` (order.service.ts lines 262-388), continued:
after order lookup, status validation and the optional label purchase,
write status (and the tracking number when one is at hand) on the order
row. -/
def updateOrderStatus (tx : Except ShippoFailure ShippoTransaction) (orderId : Nat)
    (status : String) (trackingNumber : String) (db : DB) :
    Except AppError UpdateStatusResult × DB :=
  match db.orders.find? (fun o => o.id == orderId) with
  | none => (.error ⟨"Order not found", 404⟩, db)
  | some fullOrder =>
    if !(validStatuses.contains status) then
      (.error ⟨"Invalid order status", 400⟩, db)
    else
      match labelStepFor tx orderId status trackingNumber fullOrder db with
      | (.error e, db') => (.error e, db')
      | (.ok tn, db') =>
        (.ok ⟨true, if tn == "" then none else some tn⟩,
         { db' with orders := db'.orders.map (fun o =>
             if o.id == orderId then
               { o with
                 status := status
                 tracking_number := if tn == "" then o.tracking_number else some tn }
             else o) })

/-! ## Concrete sample data (the scenario of spec section 8: one line,
quantity 2, unit price 1000, rate priced 500) -/

/-- Sample dimensions. -/
def dimsA : Dimensions := ⟨10, 10, 10⟩

/-- Sample product: price 1000 minor units, inventory 10. -/
def productA : Product := ⟨"prod_a", 1000, 1, dimsA, 10⟩

/-- Sample cart. -/
def cartA : Cart := ⟨"cart_1", some "user_1"⟩

/-- Sample shipping address. -/
def addrShip : Address := ⟨"addr_1", "1 Main St", "Springfield", "IL", "62701", "US"⟩

/-- Sample billing address. -/
def addrBill : Address := ⟨"addr_2", "2 Oak Ave", "Springfield", "IL", "62701", "US"⟩

/-- Sample cart line: quantity 2 of the sample product, array-shaped join. -/
def lineA : CartItemRow := ⟨"ci_1", "cart_1", "prod_a", 2, true⟩

/-- Sample store. -/
def dbA : DB := ⟨[cartA], [lineA], [productA], [addrShip, addrBill], [], [], 1⟩

/-- Sample rate offer priced 500. -/
def rateStd : ShippingRate := ⟨"rate_1", "usps_priority", "USPS Priority Mail", "usps", 500, 3⟩

/-- A resolver that always quotes the sample offer. -/
def resolveStd : RateResolver := fun _ _ => .ok [rateStd]

/-- Sample checkout request matching the sample offer. -/
def dtoA : CreatePaymentIntentDto := ⟨"cart_1", "addr_1", "addr_2", "usps_priority", "rate_1"⟩

/-- Sample payment intent carrying the sample metadata, authorized for
2640. -/
def piA : PaymentIntent :=
  ⟨"pi_1", 2640, ⟨"cart_1", "user_1", "addr_1", "addr_2", "usps_priority", "rate_1"⟩⟩

/-- The cart snapshot of the sample store. -/
def cwiA : CartWithItems :=
  ⟨cartA, [⟨"ci_1", 2, some (.arr [productA])⟩], ⟨2000, 2⟩⟩

/-! ## C5 — authorized amount is subtotal + tax + shipping -/

/-- C5: for every cart snapshot and available shipping selection,
`createPaymentIntent` authorizes an amount equal to the live cart
subtotal plus round(subtotal times 0.07) plus the selected rate price,
returning that breakdown. -/
theorem createPaymentIntent_amount (resolve : RateResolver)
    (d : CreatePaymentIntentDto) (db : DB) (cwi : CartWithItems) (addr : Address)
    (sitems : List ShippingItem) (rates : List ShippingRate) (sel : ShippingRate)
    (hcwi : getCartWithItems db d.cartId = .ok cwi)
    (hne : cwi.items.isEmpty = false)
    (haddr : db.addresses.find? (fun a => a.id == d.shipping_address_id) = some addr)
    (hmap : mapToShippingItems cwi.items = some sitems)
    (hres : resolve addr sitems = .ok rates)
    (hsel : rates.find? (fun rate => rate.service_code == d.shipping_method) = some sel) :
    createPaymentIntent resolve d db =
      .ok ⟨cwi.summary.subtotal + jsRound ((cwi.summary.subtotal : ℚ) * (7/100)) + sel.rate,
           cwi.summary.subtotal, taxOf cwi.summary.subtotal, sel.rate⟩ := by
  unfold createPaymentIntent
  rw [hcwi]
  simp only [Except.bind, bind, hne, Bool.false_eq_true, if_false, haddr, hmap, hres, hsel,
    taxOf]
  rfl

/-- C5 witness: the concrete scenario — subtotal 2000, tax 140 at 7
percent, shipping 500, authorized amount 2640. -/
theorem createPaymentIntent_amount_witness :
    createPaymentIntent resolveStd dtoA dbA = .ok ⟨2640, 2000, 140, 500⟩ := by
  have h := createPaymentIntent_amount resolveStd dtoA dbA cwiA addrShip
    [⟨"prod_a", 2, 1, dimsA⟩] [rateStd] rateStd
    (by decide) (by decide) (by decide) (by decide) (by decide) (by decide)
  rw [h]
  norm_num [cwiA, rateStd, taxOf, jsRound, Rat.floor]

/-! ## C6 — the subtotal counts only array-shaped joined lines -/

/-- What one line contributes to the computed subtotal: unit price times
quantity when the joined products field is a non-empty array, nothing
otherwise. -/
def lineSubtotal (item : CartLineJoined) : ℤ :=
  match item.products with
  | some (.arr (p :: _)) => p.price * item.quantity
  | _ => 0

/-- What one line contributes to `totalItems`: its quantity whenever the
joined products field is present. -/
def lineItemCount (item : CartLineJoined) : ℤ :=
  match item.products with
  | some _ => item.quantity
  | none => 0

/-- The totals loop accumulates exactly the per-line contributions. -/
theorem cartTotals_foldl (items : List CartLineJoined) (acc : CartSummary) :
    items.foldl cartTotalsStep acc =
      ⟨acc.subtotal + (items.map lineSubtotal).sum,
       acc.totalItems + (items.map lineItemCount).sum⟩ := by
  induction items generalizing acc with
  | nil => simp
  | cons it rest ih =>
    rw [List.foldl_cons, ih]
    rcases h : it.products with _ | pj
    · simp only [cartTotalsStep, lineSubtotal, lineItemCount, h, List.map_cons, List.sum_cons]
      exact congrArg₂ CartSummary.mk (by ring) (by ring)
    · rcases pj with p | ps
      · simp only [cartTotalsStep, lineSubtotal, lineItemCount, h, List.map_cons, List.sum_cons]
        exact congrArg₂ CartSummary.mk (by ring) (by ring)
      · rcases ps with _ | ⟨p, ps⟩
        · simp only [cartTotalsStep, lineSubtotal, lineItemCount, h, List.map_cons,
            List.sum_cons]
          exact congrArg₂ CartSummary.mk (by ring) (by ring)
        · simp only [cartTotalsStep, lineSubtotal, lineItemCount, h, List.map_cons,
            List.sum_cons]
          exact congrArg₂ CartSummary.mk (by ring) (by ring)

/-- C6: the summary of `getCartWithItems` sums unit price times quantity
only over lines whose joined products field is a non-empty array, while
`totalItems` counts every line with a present products field; in
particular a line joined as a single object contributes its quantity to
`totalItems` and nothing to the subtotal. -/
theorem getCartWithItems_summary (db : DB) (cartId : String) (cwi : CartWithItems)
    (h : getCartWithItems db cartId = .ok cwi) :
    cwi.summary.subtotal = (cwi.items.map lineSubtotal).sum ∧
    cwi.summary.totalItems = (cwi.items.map lineItemCount).sum ∧
    ∀ item ∈ cwi.items, ∀ p, item.products = some (.obj p) →
      lineSubtotal item = 0 ∧ lineItemCount item = item.quantity := by
  unfold getCartWithItems at h
  rcases hfind : db.carts.find? (fun c => c.id == cartId) with _ | cart
  · rw [hfind] at h
    exact absurd h (by simp)
  · rw [hfind] at h
    have hcwi : cwi = ⟨cart,
        (db.cart_items.filter (fun r => r.cart_id == cartId)).map
          (fun r => ⟨r.id, r.quantity, joinProducts db r⟩),
        cartTotals ((db.cart_items.filter (fun r => r.cart_id == cartId)).map
          (fun r => ⟨r.id, r.quantity, joinProducts db r⟩))⟩ := by
      cases h
      rfl
    subst hcwi
    refine ⟨?_, ?_, ?_⟩
    · rw [cartTotals, cartTotals_foldl]
      simp
    · rw [cartTotals, cartTotals_foldl]
      simp
    · intro item _ p hp
      constructor
      · unfold lineSubtotal
        rw [hp]
      · unfold lineItemCount
        rw [hp]

/-- Sample cart line whose join comes back as a single object. -/
def lineObjA : CartItemRow := ⟨"ci_1", "cart_1", "prod_a", 2, false⟩

/-- Sample store whose only cart line is object-shaped. -/
def dbObj : DB := ⟨[cartA], [lineObjA], [productA], [addrShip, addrBill], [], [], 1⟩

/-- The snapshot of `dbObj`: two units counted, subtotal zero. -/
def cwiObj : CartWithItems := ⟨cartA, [⟨"ci_1", 2, some (.obj productA)⟩], ⟨0, 2⟩⟩

/-- C6 witness: on the object-shaped store the summary counts 2 units
but a zero subtotal, understating the 2000 the line is worth. -/
theorem getCartWithItems_summary_witness :
    getCartWithItems dbObj "cart_1" = .ok cwiObj ∧
    cwiObj.summary.subtotal = (cwiObj.items.map lineSubtotal).sum ∧
    cwiObj.summary.subtotal = 0 ∧ cwiObj.summary.totalItems = 2 ∧
    (cwiObj.items.map (fun item => productA.price * item.quantity)).sum = 2000 :=
  ⟨by decide, (getCartWithItems_summary dbObj "cart_1" cwiObj (by decide)).1,
   by decide, by decide, by decide⟩

/-! ## C7 — the service-code mismatch check is unreachable -/

/-- A resolver whose only offer carries the stored rate token but a
different service code. -/
def resolveMismatch : RateResolver :=
  fun _ _ => .ok [⟨"rate_1", "usps_ground_advantage", "USPS Ground Advantage", "usps", 700, 5⟩]

/-- C7: the claim fails on the code: against a re-quote whose token
rate_1 now maps to service usps_ground_advantage while the metadata
records usps_priority (and no Order row exists yet), the materializer
does not fail with the shipping-method-mismatch error.  The `.single()`
duplicate check errors on zero rows, so the invocation throws the
duplicate-check failure first and the service-code comparison of
payment.service.ts lines 919-929 is never evaluated.  (The store is
indeed left untouched, but by the earlier throw.) -/
theorem mismatch_unreachable :
    createOrderFromPaymentIntent resolveMismatch piA dbA =
      (.error ⟨"Failed to check existing order", 500⟩, dbA) ∧
    createOrderFromPaymentIntent resolveMismatch piA dbA ≠
      (.error ⟨"Shipping method mismatch", 400⟩, dbA) := by decide

/-! ## C8 — webhook responses: client error on bad signature, success
otherwise, whatever the event or handler outcome -/

/-- C8: an invalid (missing or unverifiable) signature yields a 400 with
no state change; a valid signature always yields a 200 success response;
the dispatcher acknowledges receipt for every event, including ones
whose internal handler throws; and an unrecognized event type changes no
state. -/
theorem webhook_response_contract :
    (∀ (h : WebhookHandlers) (ev : Except String String) (db : DB),
      handleStripeWebhookRequest h none ev db = (⟨400, false⟩, db)) ∧
    (∀ (h : WebhookHandlers) (s m : String) (db : DB),
      handleStripeWebhookRequest h (some s) (.error m) db = (⟨400, false⟩, db)) ∧
    (∀ (h : WebhookHandlers) (s ty : String) (db : DB),
      (handleStripeWebhookRequest h (some s) (.ok ty) db).1 = ⟨200, true⟩) ∧
    (∀ (h : WebhookHandlers) (ty : String) (db : DB),
      (handleStripeWebhook h ty db).1.received = true) ∧
    (∀ (h : WebhookHandlers) (s ty : String) (db : DB),
      recognizedEventTypes.contains ty = false →
      (handleStripeWebhookRequest h (some s) (.ok ty) db).2 = db) := by
  refine ⟨fun _ _ _ => rfl, fun _ _ _ _ => rfl, fun h s ty db => rfl, ?_, ?_⟩
  · intro h ty db
    cases hE : (dispatchEvent h ty db).1 <;> simp [handleStripeWebhook, hE]
  · intro h s ty db hc
    simp only [recognizedEventTypes, List.contains_cons, List.contains_nil,
      Bool.or_eq_false_iff] at hc
    obtain ⟨h1, h2, h3, h4, h5, h6, h7, h8, h9, h10, -⟩ := hc
    simp [handleStripeWebhookRequest, handleStripeWebhook, dispatchEvent,
      h1, h2, h3, h4, h5, h6, h7, h8, h9, h10]

/-- Handlers that all throw, exercising the catch-all. -/
def handlersBoom : WebhookHandlers :=
  ⟨fun db => (.error ⟨"internal failure", 500⟩, db),
   fun db => (.error ⟨"internal failure", 500⟩, db),
   fun db => (.error ⟨"internal failure", 500⟩, db),
   fun db => (.error ⟨"internal failure", 500⟩, db),
   fun db => (.error ⟨"internal failure", 500⟩, db),
   fun db => (.error ⟨"internal failure", 500⟩, db),
   fun db => (.error ⟨"internal failure", 500⟩, db),
   fun db => (.error ⟨"internal failure", 500⟩, db),
   fun db => (.error ⟨"internal failure", 500⟩, db)⟩

/-- C8 witness: missing signature gives 400 and no change; a throwing
handler is still acknowledged; an unknown event type leaves the store
unchanged behind a 200. -/
theorem webhook_response_contract_witness :
    handleStripeWebhookRequest handlersBoom none (.ok "payment_intent.succeeded") dbA =
      (⟨400, false⟩, dbA) ∧
    (handleStripeWebhook handlersBoom "payment_intent.succeeded" dbA).1.received = true ∧
    (handleStripeWebhookRequest handlersBoom (some "sig") (.ok "order.created") dbA).2 = dbA :=
  ⟨webhook_response_contract.1 handlersBoom (.ok "payment_intent.succeeded") dbA,
   webhook_response_contract.2.2.2.1 handlersBoom "payment_intent.succeeded" dbA,
   webhook_response_contract.2.2.2.2 handlersBoom "sig" "order.created" dbA (by decide)⟩

/-! ## C9 — no-rates is distinguishable from provider failure -/

/-- C9: zero quotable offers fail with the no-rates error; an aggregator
transport failure re-surfaces with its own message (and an auth failure
mentioning an invalid API key becomes the configuration error), so a
transport failure is never collapsed into the no-rates outcome. -/
theorem calculateShippingRates_error_taxonomy (req : ShippingRateRequest) :
    (calculateShippingRates (.ok []) req =
      .error ⟨"No shipping rates available for this address", 500⟩) ∧
    (∀ m : String, strContains m "Invalid API key" = true →
      calculateShippingRates (.error ⟨m⟩) req =
        .error ⟨"Shipping service configuration error", 500⟩) ∧
    (∀ m : String, strContains m "Invalid API key" = false → (m == "") = false →
      calculateShippingRates (.error ⟨m⟩) req = .error ⟨m, 500⟩) ∧
    (∀ m : String, strContains m "Invalid API key" = false → (m == "") = false →
      m ≠ "No shipping rates available for this address" →
      calculateShippingRates (.error ⟨m⟩) req ≠
        .error ⟨"No shipping rates available for this address", 500⟩) := by
  have key : ∀ m : String, strContains m "Invalid API key" = false → (m == "") = false →
      calculateShippingRates (.error ⟨m⟩) req = .error ⟨m, 500⟩ := by
    intro m h1 h2
    simp [calculateShippingRates, calculateShippingRatesCore, h1, h2]
  refine ⟨rfl, ?_, key, ?_⟩
  · intro m h1
    simp [calculateShippingRates, calculateShippingRatesCore, h1]
  · intro m h1 h2 h3 heq
    rw [key m h1 h2] at heq
    exact h3 (congrArg AppError.message (Except.error.inj heq))

/-- Sample rate request. -/
def reqA : ShippingRateRequest := ⟨addrShip, [⟨"prod_a", 2, 1, dimsA⟩], 2000⟩

/-- C9 witness: the three outcomes on concrete inputs, pairwise
distinguishable. -/
theorem calculateShippingRates_error_taxonomy_witness :
    calculateShippingRates (.ok []) reqA =
      .error ⟨"No shipping rates available for this address", 500⟩ ∧
    calculateShippingRates (.error ⟨"connect ECONNREFUSED"⟩) reqA =
      .error ⟨"connect ECONNREFUSED", 500⟩ ∧
    calculateShippingRates (.error ⟨"Request failed: Invalid API key"⟩) reqA =
      .error ⟨"Shipping service configuration error", 500⟩ ∧
    calculateShippingRates (.error ⟨"connect ECONNREFUSED"⟩) reqA ≠
      .error ⟨"No shipping rates available for this address", 500⟩ :=
  ⟨(calculateShippingRates_error_taxonomy reqA).1,
   (calculateShippingRates_error_taxonomy reqA).2.2.1 "connect ECONNREFUSED"
     (by decide) (by decide),
   (calculateShippingRates_error_taxonomy reqA).2.1 "Request failed: Invalid API key"
     (by decide),
   (calculateShippingRates_error_taxonomy reqA).2.2.2 "connect ECONNREFUSED"
     (by decide) (by decide) (by decide)⟩

/-! ## C10 — the admin status update never touches inventory -/

/-- The label purchase writes only order fields: products, cart lines
and order items are untouched. -/
theorem generateShippingLabel_frame (tx : Except ShippoFailure ShippoTransaction)
    (oid : Nat) (db : DB) :
    ((generateShippingLabel tx oid db).2).products = db.products ∧
    ((generateShippingLabel tx oid db).2).cart_items = db.cart_items ∧
    ((generateShippingLabel tx oid db).2).order_items = db.order_items := by
  rcases tx with f | t
  · exact ⟨rfl, rfl, rfl⟩
  · unfold generateShippingLabel
    dsimp only
    split
    · exact ⟨rfl, rfl, rfl⟩
    · exact ⟨rfl, rfl, rfl⟩

/-- The label branch writes only order fields. -/
theorem labelStepFor_frame (tx : Except ShippoFailure ShippoTransaction) (oid : Nat)
    (st tn : String) (fo : OrderRow) (db : DB) :
    ((labelStepFor tx oid st tn fo db).2).products = db.products ∧
    ((labelStepFor tx oid st tn fo db).2).cart_items = db.cart_items ∧
    ((labelStepFor tx oid st tn fo db).2).order_items = db.order_items := by
  unfold labelStepFor
  split
  · split
    · exact ⟨rfl, rfl, rfl⟩
    · split
      · exact ⟨rfl, rfl, rfl⟩
      · rcases hg : generateShippingLabel tx oid db with ⟨res, db2⟩
        have hfr := generateShippingLabel_frame tx oid db
        rw [hg] at hfr
        cases res
        · exact hfr
        · exact hfr
  · exact ⟨rfl, rfl, rfl⟩

/-- C10: for every order, requested status (including cancelled and
refunded) and tracking number, `updateOrderStatus` leaves every
product — in particular every `inventory_quantity` — and all cart lines
and order items unchanged; it writes order rows only. -/
theorem updateOrderStatus_frame (tx : Except ShippoFailure ShippoTransaction)
    (orderId : Nat) (status trackingNumber : String) (db : DB) :
    ((updateOrderStatus tx orderId status trackingNumber db).2).products = db.products ∧
    ((updateOrderStatus tx orderId status trackingNumber db).2).cart_items = db.cart_items ∧
    ((updateOrderStatus tx orderId status trackingNumber db).2).order_items = db.order_items := by
  unfold updateOrderStatus
  rcases hf : db.orders.find? (fun o => o.id == orderId) with _ | fullOrder
  · rw [hf]
    exact ⟨rfl, rfl, rfl⟩
  · rw [hf]
    dsimp only
    split
    · exact ⟨rfl, rfl, rfl⟩
    · rcases hl : labelStepFor tx orderId status trackingNumber fullOrder db with ⟨res, db2⟩
      have hfr := labelStepFor_frame tx orderId status trackingNumber fullOrder db
      rw [hl] at hfr
      cases res
      · exact hfr
      · exact hfr

/-! ## C4 — no materialization ever succeeds -/

/-- C4: the claim fails on the code: invoking the materializer on the
sample scenario (cart with one line of quantity 2, product inventory 10,
matching rate offer, no existing Order row) throws the duplicate-check
failure — `.single()` errors on zero rows — so no order is created, the
cart keeps its line and the inventory stays 10; the claimed
cart-emptying and per-product inventory decrement never happen. -/
theorem materialization_never_succeeds :
    createOrderFromPaymentIntent resolveStd piA dbA =
      (.error ⟨"Failed to check existing order", 500⟩, dbA) ∧
    ((createOrderFromPaymentIntent resolveStd piA dbA).2.cart_items.filter
      (fun r => r.cart_id == "cart_1")).length = 1 ∧
    (((createOrderFromPaymentIntent resolveStd piA dbA).2.products.find?
        (fun p => p.id == "prod_a")).map (fun p => p.inventory_quantity) = some 10) ∧
    (createOrderFromPaymentIntent resolveStd piA dbA).2.orders = [] := by decide

/-! ## C1, C2, C3 — the duplicate check dead-ends every invocation

The uniqueness constraint modelled in `insertOrder` comes from the spec
(the hosted-database schema is not under src/), but it decorates code
the duplicate check above it makes unreachable.  `matStep`/`run2`
interleave two invocations at the granularity of the awaited storage
operations. -/

/-- C1: the claim fails on the code: when no Order row exists for the
payment intent, the `.single()` duplicate check errors on zero rows and
the invocation throws the duplicate-check failure with no writes — so
repeated invocation yields zero Order rows, never exactly one; only when
exactly one Order row already exists does an invocation return its id
with created false, again with no writes. -/
theorem createOrderFromPaymentIntent_check (resolve : RateResolver)
    (pi : PaymentIntent) (db : DB) :
    (db.orders.filter (fun o => o.stripe_payment_intent_id == pi.id) = [] →
      createOrderFromPaymentIntent resolve pi db =
        (.error ⟨"Failed to check existing order", 500⟩, db)) ∧
    (∀ o : OrderRow,
      db.orders.filter (fun o => o.stripe_payment_intent_id == pi.id) = [o] →
      createOrderFromPaymentIntent resolve pi db = (.ok ⟨o.id, false⟩, db)) := by
  constructor
  · intro hf
    have hc : checkExistingOrder db pi.id = (some (), none) := by
      unfold checkExistingOrder
      rw [hf]
    unfold createOrderFromPaymentIntent
    rw [hc]
  · intro o hf
    have hc : checkExistingOrder db pi.id = (none, some o) := by
      unfold checkExistingOrder
      rw [hf]
    unfold createOrderFromPaymentIntent
    rw [hc]

/-- Order items of an order created out of band (used to build a store
that already holds an order). -/
def orowsA : List OrderItemRow := [⟨1, "prod_a", 2, 1000, 2000⟩]

/-- An order row for the sample intent, created out of band. -/
def orderA : OrderRow :=
  ⟨1, some "user_1", "paid", 2640, 2000, 140, 500, 0, "pi_1", "addr_2", "addr_1",
   "usps_priority", "rate_1", none, none, none⟩

/-- The sample store with that order already present. -/
def dbDone : DB := ⟨[cartA], [lineA], [productA], [addrShip, addrBill], [orderA], orowsA, 2⟩

/-- C1 witness: on the fresh sample store the invocation throws the
duplicate-check failure and writes nothing; on a store already holding
the sample order it returns that id with created false. -/
theorem createOrderFromPaymentIntent_check_witness :
    createOrderFromPaymentIntent resolveStd piA dbA =
      (.error ⟨"Failed to check existing order", 500⟩, dbA) ∧
    createOrderFromPaymentIntent resolveStd piA dbDone = (.ok ⟨1, false⟩, dbDone) :=
  ⟨(createOrderFromPaymentIntent_check resolveStd piA dbA).1 (by decide),
   (createOrderFromPaymentIntent_check resolveStd piA dbDone).2 orderA (by decide)⟩

/-- C2: the claim fails on the code: the order insert is dead code.
Every invocation either throws the duplicate-check failure or returns an
already-existing order id with created false, in both cases leaving the
store untouched — no execution reaches the insert of payment.service.ts
lines 938-961, so none can hit, let alone swallow, a uniqueness
violation there; and the insert error branch as written (lines 963-966)
throws the generic failure for every error, with no conflict handling
and no re-fetch. -/
theorem createOrder_never_inserts (resolve : RateResolver) (pi : PaymentIntent)
    (db : DB) :
    (createOrderFromPaymentIntent resolve pi db).2 = db ∧
    ((createOrderFromPaymentIntent resolve pi db).1 =
        .error ⟨"Failed to check existing order", 500⟩ ∨
      ∃ o, o ∈ db.orders ∧
        (createOrderFromPaymentIntent resolve pi db).1 = .ok ⟨o.id, false⟩) := by
  rcases hf : db.orders.filter (fun o => o.stripe_payment_intent_id == pi.id) with _ | ⟨o, rest⟩
  · have hc : checkExistingOrder db pi.id = (some (), none) := by
      unfold checkExistingOrder
      rw [hf]
    unfold createOrderFromPaymentIntent
    rw [hc]
    exact ⟨rfl, Or.inl rfl⟩
  · rcases rest with _ | ⟨o2, rest2⟩
    · have hc : checkExistingOrder db pi.id = (none, some o) := by
        unfold checkExistingOrder
        rw [hf]
      unfold createOrderFromPaymentIntent
      rw [hc]
      refine ⟨rfl, Or.inr ⟨o, ?_, rfl⟩⟩
      have hm : o ∈ db.orders.filter (fun o => o.stripe_payment_intent_id == pi.id) := by
        rw [hf]
        exact List.mem_cons_self o []
      exact List.mem_of_mem_filter hm
    · have hc : checkExistingOrder db pi.id = (some (), none) := by
        unfold checkExistingOrder
        rw [hf]
      unfold createOrderFromPaymentIntent
      rw [hc]
      exact ⟨rfl, Or.inl rfl⟩

/-- A second cart ordering 3 units of the same product. -/
def cartB : Cart := ⟨"cart_2", some "user_2"⟩

/-- The line of the second cart. -/
def lineB : CartItemRow := ⟨"ci_2", "cart_2", "prod_a", 3, true⟩

/-- Store with two carts touching one product with inventory 10. -/
def dbB : DB := ⟨[cartA, cartB], [lineA, lineB], [productA], [addrShip, addrBill], [], [], 1⟩

/-- Payment intent for the second cart. -/
def piB : PaymentIntent :=
  ⟨"pi_2", 3815, ⟨"cart_2", "user_2", "addr_1", "addr_2", "usps_priority", "rate_1"⟩⟩

/-- Schedule where both materializations would snapshot before either
writes, were the creation path reachable. -/
def schedLost : List Bool :=
  [true, false, true, true, true, true, false, false, false, false]

/-- C3: the claim fails on the code: two interleaved materializations of
different orders touching the same product never decrement anything —
both throw the duplicate-check failure before any write, the store is
returned unchanged and the inventory stays 10 although 5 = 2 + 3 units
were ordered.  The decrement as written (payment.service.ts lines
1000-1006) is in any case an application-memory read-then-write of an
absolute snapshot value, not a storage-evaluated atomic delta, but it
never executes. -/
theorem inventory_never_decremented :
    ((run2 resolveStd resolveStd piA piB schedLost dbB .start .start).2.1 =
      .finished (.error ⟨"Failed to check existing order", 500⟩)) ∧
    ((run2 resolveStd resolveStd piA piB schedLost dbB .start .start).2.2 =
      .finished (.error ⟨"Failed to check existing order", 500⟩)) ∧
    ((run2 resolveStd resolveStd piA piB schedLost dbB .start .start).1 = dbB) ∧
    (((run2 resolveStd resolveStd piA piB schedLost dbB .start .start).1.products.find?
        (fun p => p.id == "prod_a")).map (fun p => p.inventory_quantity) = some 10) ∧
    productA.inventory_quantity - (2 + 3) = 5 ∧ ((10 : ℤ) ≠ 5) := by decide

end Shop
